import Mathlib

/-!
Verification of the `search-tui` session controller (src/main.rs) against its
specification.  This file shallowly embeds the program's data model, render
engine, session-controller event loop, debounced search scheduler, and search
invoker as executable Lean definitions, and proves the frozen claims about
them.

Conventions of the embedding:
* Terminal I/O is modelled as a trace of `TermOp` draw operations (crossterm
  commands); raw-mode switching and the stderr line printed by `main` are
  modelled in the coarser `Action` trace.
* The templating micro-language (tinytemplate) is an external collaborator;
  template construction and rendering are passed in as oracle functions
  returning `Except`, mirroring `Template::new` / `Template::render`.
* `usize`/`u16` quantities (indices, lengths, terminal height) are `Nat`;
  all arithmetic performed on them in the source (`+ 1`, `- 1` guarded by
  `+ num_results`, `%`, `min`, `max`) stays far from any overflow boundary,
  so plain `Nat` is faithful.
* The `f64` confidence score is only deserialized and passed through to the
  display-template context, never computed on; it is carried as an opaque
  `Int` stand-in.
-/

namespace SearchTui

/-- Entry of a search result, mirroring `struct SearchResultEntry`
(fields in source order: confidence, identifier, title). -/
structure SearchResultEntry where
  confidence : Int
  identifier : String
  title : String
deriving DecidableEq

/-- Mirror of `struct SearchResult { results: Vec<SearchResultEntry> }`. -/
structure SearchResult where
  results : List SearchResultEntry
deriving DecidableEq

/-- Mirror of `struct QueryCommand { executable, args }`. -/
structure QueryCommand where
  executable : String
  args : List String
deriving DecidableEq

/-- Mirror of `struct Config { query_command, timeout_millis, display_template }`. -/
structure Config where
  query_command : QueryCommand
  timeout_millis : Nat
  display_template : String
deriving DecidableEq

/-- Terminal draw operations issued through crossterm's `execute!`/`queue!`.
Each constructor corresponds to one command used by the source. -/
inductive TermOp
  | print (s : String)
  | savePosition
  | restorePosition
  | moveRight (n : Nat)
  | clearFromCursorDown
  | clearUntilNewLine
  | setForegroundColorBlack
  | setBackgroundColorWhite
  | resetColor
deriving DecidableEq

/-- The fixed query-line prompt, `QUERY_PREFIX` in the source ("Search > "). -/
def queryPrompt : String := "Search > "

/-- Ops issued by `fn update_query` (lines 169-180): restore to the saved
position, return to column 0, skip the prompt, clear the rest of the line,
print the query text, save the position again. -/
def update_query_ops (query : String) : List TermOp :=
  [TermOp.restorePosition, TermOp.print "\r", TermOp.moveRight queryPrompt.length,
   TermOp.clearUntilNewLine, TermOp.print query, TermOp.savePosition]

/-- Context handed to the results display template for one row
(the `Context` struct local to `fn update_results`). -/
structure DisplayCtx where
  identifier : String
  title : String
  confidence : Int
  index : Nat
  one_based_index : Nat
  display_index : Nat
  one_based_display_index : Nat
deriving DecidableEq

/-- Builds the display context for the entry at absolute index `entryIndex`
shown at visible row `displayIndex`, exactly as `fn update_results` does. -/
def mkDisplayCtx (e : SearchResultEntry) (entryIndex displayIndex : Nat) : DisplayCtx :=
  ⟨e.identifier, e.title, e.confidence, entryIndex, entryIndex + 1,
   displayIndex, displayIndex + 1⟩

/-- Failure of a redraw: a template construction/render failure (the `?`
operators inside `fn update_results`), or the panic of the
`result.results.get(entry_index).unwrap()` call on line 260. -/
inductive RenderError
  | template (msg : String)
  | unwrapPanic
deriving DecidableEq

/-- Message carried into `anyhow::Error` when a redraw fails. -/
def renderErrMsg : RenderError → String
  | .template m => m
  | .unwrapPanic => "unwrap on a None value"

/-- The bound `(term_height.max(2) - 2)` from line 248: number of result rows
that fit below the query line.  With Nat truncated subtraction this equals
the spec's max(terminal_height - 2, 0). -/
def maxResultsShown (termHeight : Nat) : Nat := max termHeight 2 - 2

/-- Ops opening one result row: "\r\n", plus the inverted-color setup that
lines 252-258 emit only for visible row 0. -/
def rowHead (j : Nat) : List TermOp :=
  TermOp.print "\r\n" ::
    (if j = 0 then [TermOp.setForegroundColorBlack, TermOp.setBackgroundColorWhite] else [])

/-- Ops closing one result row: the `ResetColor` that lines 271-273 emit only
for visible row 0. -/
def rowTail (j : Nat) : List TermOp :=
  if j = 0 then [TermOp.resetColor] else []

/-- One iteration of the row loop of `fn update_results` (lines 250-274) for
visible row `j`: look up entry `(selected_index + j) % num_results`
(the `.get(..).unwrap()` of lines 259-260, `none` modelling the panic),
render the display template, clear the rest of the line and print the row.
`rd` is the oracle for `display_template.render`. -/
def rowOps (rd : DisplayCtx → Except String String) (entries : List SearchResultEntry)
    (s n j : Nat) : List TermOp × Except RenderError Unit :=
  match entries.get? ((s + j) % n) with
  | none => (rowHead j, Except.error RenderError.unwrapPanic)
  | some e =>
    match rd (mkDisplayCtx e ((s + j) % n) j) with
    | .error m => (rowHead j, Except.error (RenderError.template m))
    | .ok str =>
      (rowHead j ++ [TermOp.clearUntilNewLine, TermOp.print str] ++ rowTail j,
       Except.ok ())

/-- The row loop `for index in 0..count` of `fn update_results`, starting at
visible row `j` with `count` rows still to draw.  A failing row stops the
loop (the `?` propagates) after its already-queued ops. -/
def rowsOps (rd : DisplayCtx → Except String String) (entries : List SearchResultEntry)
    (s n : Nat) : Nat → Nat → List (List TermOp) × Except RenderError Unit
  | _, 0 => ([], Except.ok ())
  | j, count + 1 =>
    match rowOps rd entries s n j with
    | (ops, .error e) => ([ops], Except.error e)
    | (ops, .ok _) =>
      let rest := rowsOps rd entries s n (j + 1) count
      (ops :: rest.1, rest.2)

/-- Embedding of `fn update_results` (lines 223-279).  `dt` is the outcome of
`Template::new(&config.display_template)` (line 249): either a render oracle
or a construction error.  Returns the op trace actually issued and the
function's result.  The trace shape `Clear(FromCursorDown)` first (line 240)
and `RestorePosition` last reflects `RestorePositionRAII` (line 241 and lines
297-303): the guard is created right after the clear and its `Drop` runs on
every exit path of the function, error paths included, so the restore is the
final op no matter which branch or failure occurred. -/
def update_results (dt : Except String (DisplayCtx → Except String String))
    (result : Option SearchResult) (selected_index termHeight : Nat) :
    List TermOp × Except RenderError Unit :=
  let body : List TermOp × Except RenderError Unit :=
    match result with
    | none => ([], Except.ok ())
    | some r =>
      if r.results.length = 0 then
        ([TermOp.print "\r\nno entries found"], Except.ok ())
      else
        match dt with
        | .error m => ([], Except.error (RenderError.template m))
        | .ok rd =>
          let rows := rowsOps rd r.results selected_index r.results.length 0
            (min r.results.length (maxResultsShown termHeight))
          (rows.1.flatten, rows.2)
  (TermOp.clearFromCursorDown :: body.1 ++ [TermOp.restorePosition], body.2)

/-- Extracts the text printed by a `print` op. -/
def opText : TermOp → Option String
  | .print s => some s
  | _ => none

/-- The last text printed among a row's ops: for a successfully drawn row this
is the rendered display line. -/
def rowText (ops : List TermOp) : Option String :=
  (ops.filterMap opText).getLast?

/-! ## Session controller (`fn run`, lines 47-155) -/

/-- Mutable state owned by the event loop of `fn run`: the query buffer,
`selected_index` and `current_result` (lines 53-55). -/
structure SessionState where
  query : String
  selected_index : Nat
  current_result : Option SearchResult
deriving DecidableEq

/-- The key codes `fn run` distinguishes; `other` is the `_ => {}` arm. -/
inductive KeyCode
  | char (c : Char)
  | backspace
  | up
  | down
  | esc
  | enter
  | other
deriving DecidableEq

/-- One ready arm of the `futures::select!` in the loop body: a terminal
event (key or resize), the event stream erroring (`Some(Err(e))`), the event
stream ending (`None`), or the pending search future completing. -/
inductive LoopEvent
  | key (k : KeyCode)
  | resize
  | streamError (msg : String)
  | streamNone
  | searchDone (outcome : Except String SearchResult)

/-- Control-flow outcome of one handled event: keep looping, `break` with the
session result, or `return Err` (the `?`/`return` paths inside the loop). -/
inductive Control
  | cont
  | brk (result : Option String)
  | err (msg : String)
deriving DecidableEq

/-- Result of handling one event: the state after all of the handler's
mutations, the terminal ops it issued, its control-flow outcome, and the
query submitted to the debounced scheduler if the handler replaced the
pending search future (`search_future.set(...)`). -/
structure StepResult where
  state : SessionState
  ops : List TermOp
  control : Control
  submitted : Option String
deriving DecidableEq

/-- Embedding of the loop body of `fn run` (lines 62-149): handles one ready
event.  `dt` is the display-template oracle used by redraws, `h` the terminal
height reported by `size()`.  Note the source's order in the search
completion arms (lines 133-147): install the result, redraw with the still
current `selected_index`, and only then reset `selected_index` to 0. -/
def step (dt : Except String (DisplayCtx → Except String String)) (h : Nat)
    (st : SessionState) : LoopEvent → StepResult
  | .key (.char c) =>
    ⟨⟨st.query.push c, st.selected_index, st.current_result⟩,
     update_query_ops (st.query.push c), Control.cont, some (st.query.push c)⟩
  | .key .backspace =>
    ⟨⟨st.query.dropRight 1, st.selected_index, st.current_result⟩,
     update_query_ops (st.query.dropRight 1), Control.cont,
     some (st.query.dropRight 1)⟩
  | .key .up =>
    match st.current_result with
    | none => ⟨st, [], Control.cont, none⟩
    | some r =>
      if 0 < r.results.length then
        let i := (st.selected_index + r.results.length - 1) % r.results.length
        let u := update_results dt (some r) i h
        match u.2 with
        | .ok _ => ⟨⟨st.query, i, some r⟩, u.1, Control.cont, none⟩
        | .error e => ⟨⟨st.query, i, some r⟩, u.1, Control.err (renderErrMsg e), none⟩
      else ⟨st, [], Control.cont, none⟩
  | .key .down =>
    match st.current_result with
    | none => ⟨st, [], Control.cont, none⟩
    | some r =>
      if 0 < r.results.length then
        let i := (st.selected_index + 1) % r.results.length
        let u := update_results dt (some r) i h
        match u.2 with
        | .ok _ => ⟨⟨st.query, i, some r⟩, u.1, Control.cont, none⟩
        | .error e => ⟨⟨st.query, i, some r⟩, u.1, Control.err (renderErrMsg e), none⟩
      else ⟨st, [], Control.cont, none⟩
  | .key .esc => ⟨st, [], Control.brk none, none⟩
  | .key .enter =>
    match st.current_result with
    | none => ⟨st, [], Control.cont, none⟩
    | some r =>
      match r.results.get? st.selected_index with
      | none => ⟨st, [], Control.cont, none⟩
      | some e => ⟨st, [], Control.brk (some e.identifier), none⟩
  | .key .other => ⟨st, [], Control.cont, none⟩
  | .resize =>
    let u := update_results dt st.current_result st.selected_index h
    match u.2 with
    | .ok _ => ⟨st, u.1, Control.cont, none⟩
    | .error e => ⟨st, u.1, Control.err (renderErrMsg e), none⟩
  | .streamError m => ⟨st, [], Control.err m, none⟩
  | .streamNone => ⟨st, [], Control.cont, none⟩
  | .searchDone (.ok r) =>
    let u := update_results dt (some r) st.selected_index h
    match u.2 with
    | .ok _ => ⟨⟨st.query, 0, some r⟩, u.1, Control.cont, none⟩
    | .error e =>
      ⟨⟨st.query, st.selected_index, some r⟩, u.1, Control.err (renderErrMsg e), none⟩
  | .searchDone (.error e) =>
    let u := update_results dt none st.selected_index h
    match u.2 with
    | .ok _ =>
      ⟨⟨st.query, 0, none⟩, TermOp.print ("\r\n" ++ e) :: u.1, Control.cont, none⟩
    | .error er =>
      ⟨⟨st.query, st.selected_index, none⟩, TermOp.print ("\r\n" ++ e) :: u.1,
       Control.err (renderErrMsg er), none⟩

/-- State of the session before the first event (lines 53-55). -/
def initialState : SessionState := ⟨"", 0, none⟩

/-- Outcome of running the loop over a finite event trace: the loop broke
with a result, returned an error, or is still waiting for events. -/
inductive RunOutcome
  | done (res : Option String)
  | failed (msg : String)
  | pending (st : SessionState)
deriving DecidableEq

/-- The `loop` of `fn run` over a finite trace of ready events, collecting
all terminal ops issued inside the loop. -/
def runLoop (dt : Except String (DisplayCtx → Except String String)) (h : Nat) :
    SessionState → List LoopEvent → List TermOp × RunOutcome
  | st, [] => ([], RunOutcome.pending st)
  | st, ev :: rest =>
    let r := step dt h st ev
    match r.control with
    | .cont =>
      let next := runLoop dt h r.state rest
      (r.ops ++ next.1, next.2)
    | .brk res => (r.ops, RunOutcome.done res)
    | .err m => (r.ops, RunOutcome.failed m)

/-- Whole-process actions: terminal draw ops on stdout, raw-mode switching,
and lines printed to stderr (`eprintln!`, the diagnostic stream). -/
inductive Action
  | out (op : TermOp)
  | enableRaw
  | disableRaw
  | errLine (s : String)
deriving DecidableEq

/-- The terminal cleanup performed after the loop breaks (lines 152-153):
carriage return, clear from cursor down, leave raw mode. -/
def cleanupActions : List Action :=
  [Action.out (TermOp.print "\r"), Action.out TermOp.clearFromCursorDown,
   Action.disableRaw]

/-- Embedding of `fn run` (lines 47-155): enable raw mode, print the prompt
and save the cursor position (lines 49-52), run the loop, and—only when the
loop breaks via Enter or Escape—perform the cleanup of lines 152-153 before
returning.  When the loop body does `return Err(..)` (line 126 for an event
stream error, or a `?` on a redraw), `run` returns without any cleanup,
exactly as the source does. -/
def run (dt : Except String (DisplayCtx → Except String String)) (h : Nat)
    (events : List LoopEvent) : List Action × RunOutcome :=
  let intro : List Action :=
    [Action.enableRaw, Action.out (TermOp.print queryPrompt),
     Action.out TermOp.savePosition]
  let l := runLoop dt h initialState events
  match l.2 with
  | .done res => (intro ++ l.1.map Action.out ++ cleanupActions, RunOutcome.done res)
  | .failed m => (intro ++ l.1.map Action.out, RunOutcome.failed m)
  | .pending st => (intro ++ l.1.map Action.out, RunOutcome.pending st)

/-- Embedding of `fn main` (lines 37-45) after config loading: run the
session and, if it produced an identifier, print it with `eprintln!` to the
diagnostic stream — after `run` has returned, hence after its cleanup. -/
def mainRun (dt : Except String (DisplayCtx → Except String String)) (h : Nat)
    (events : List LoopEvent) : List Action × RunOutcome :=
  let r := run dt h events
  match r.2 with
  | .done (some id) => (r.1 ++ [Action.errLine id], r.2)
  | _ => r

/-- The states at which the loop of `fn run` waits for the next event: the
state before each handled event, for as long as the loop keeps running. -/
def statesVisited (dt : Except String (DisplayCtx → Except String String))
    (h : Nat) : SessionState → List LoopEvent → List SessionState
  | st, [] => [st]
  | st, ev :: rest =>
    match (step dt h st ev).control with
    | .cont => st :: statesVisited dt h (step dt h st ev).state rest
    | _ => [st]

/-- The controller's selection invariant: whenever a ResultSet is present and
nonempty, SelectionIndex addresses a valid entry. -/
def Inv (st : SessionState) : Prop :=
  ∀ r, st.current_result = some r → 0 < r.results.length →
    st.selected_index < r.results.length

/-! ## Debounced search scheduler (lines 57-58, 72, 78, 133, 189)

The pending search is a single replaceable future: `search_future.set(..)`
replaces whatever was pending, and the replaced future is never polled
again, so a search superseded during its debounce sleep never spawns and its
outcome is never delivered.  We model discrete time: a submitted search
carries a countdown of `timeout_millis` ticks (the `tokio::time::sleep` on
line 189); a `tick` advances time, and a search whose countdown expires
executes the Search Invoker and delivers its outcome to the controller (the
`search_result = search_future` select arm). -/

/-- Scheduler stimuli: a query-change submission (`search_future.set`) or one
elapsed unit of time. -/
inductive SchedEvent
  | submit (q : String)
  | tick
deriving DecidableEq

/-- The single pending-search slot: countdown remaining until the debounce
sleep expires, and the query the search was started with. -/
structure SchedState where
  slot : Option (Nat × String)
deriving DecidableEq

/-- One scheduler transition.  The accumulated list records the queries whose
searches actually executed (and whose outcomes were therefore delivered to
the controller's completion handler), in order. -/
def schedStep (D : Nat) (s : SchedState × List String) :
    SchedEvent → SchedState × List String
  | .submit q => (⟨some (D, q)⟩, s.2)
  | .tick =>
    match s.1.slot with
    | none => s
    | some (r, q) =>
      if r ≤ 1 then (⟨none⟩, s.2 ++ [q]) else (⟨some (r - 1, q)⟩, s.2)

/-- Runs the scheduler over a stimulus trace. -/
def schedRun (D : Nat) (s : SchedState × List String) (evs : List SchedEvent) :
    SchedState × List String :=
  evs.foldl (schedStep D) s

/-- Elapsed time: a trace of n ticks. -/
def ticks (n : Nat) : List SchedEvent := List.replicate n SchedEvent.tick

/-- A burst of query submissions: submit `q`, then for each `(gap, q')` in
`rest`, let `gap` time units pass and submit `q'`. -/
def burst : String → List (Nat × String) → List SchedEvent
  | q, [] => [SchedEvent.submit q]
  | q, (g, q2) :: rest => SchedEvent.submit q :: (ticks g ++ burst q2 rest)

/-- The final query text of a burst. -/
def lastQuery : String → List (Nat × String) → String
  | q, [] => q
  | _, (_, q2) :: rest => lastQuery q2 rest

/-! ## Search invoker (`fn search`, lines 182-221)

External effects are oracles: `tpl` is template construction + rendering
against the `{query, query_escaped}` context (fixed for one call, since the
context is built once on lines 191-194), `runProc` is `Command::output()`
(its error is a spawn/IO failure), `parse` is
`serde_json::from_slice::<SearchResult>`. -/

/-- Outcome of a completed external process, as `fn search` consumes it:
whether `status.exit_ok()` succeeded, the `Display` text of the status error
when it did not, the UTF-8 decoding of captured stderr (`none` when not
decodable as text), and the captured stdout payload. -/
structure ProcOut where
  exitZero : Bool
  statusMsg : String
  stderrText : Option String
  stdoutPayload : String
deriving DecidableEq

/-- The fallback used on line 214 when stderr is not valid UTF-8. -/
def stderrFallback : String := "unable to decode stderr as utf-8"

/-- Embedding of `fn search` after the debounce sleep (lines 191-221): render
the executable template, render every argument template (first failure wins,
as `collect::<Result<..>>` does), run the process, then check the exit
status; on non-zero exit build the error message of lines 212-216 from the
decoded stderr (or the fallback) and the status error; on zero exit decode
stdout as a `SearchResult`. -/
def search (tpl : String → Except String String)
    (runProc : String → List String → Except String ProcOut)
    (parse : String → Except String SearchResult)
    (cfg : Config) : Except String SearchResult :=
  match tpl cfg.query_command.executable with
  | .error m => Except.error m
  | .ok exe =>
    match cfg.query_command.args.mapM tpl with
    | .error m => Except.error m
    | .ok args =>
      match runProc exe args with
      | .error m => Except.error m
      | .ok out =>
        if out.exitZero then parse out.stdoutPayload
        else
          Except.error
            (out.stderrText.getD stderrFallback ++ ", status error " ++ out.statusMsg)

/-! ## Concrete fixtures used by witnesses and counterexamples -/

/-- Test render oracle: each row displays its entry's identifier. -/
def rdId : DisplayCtx → Except String String := fun c => Except.ok c.identifier

/-- Successfully constructed display template around `rdId`. -/
def dtId : Except String (DisplayCtx → Except String String) := Except.ok rdId

/-- Fixture entry with identifier "a". -/
def eA : SearchResultEntry := ⟨1, "a", "Alpha"⟩

/-- Fixture entry with identifier "b". -/
def eB : SearchResultEntry := ⟨1, "b", "Beta"⟩

/-- Fixture entry with identifier "c". -/
def eC : SearchResultEntry := ⟨1, "c", "Gamma"⟩

/-- Fixture result set with three entries. -/
def newR3 : SearchResult := ⟨[eA, eB, eC]⟩

/-- Event trace: a search completes with three results, then Enter. -/
def evs7 : List LoopEvent :=
  [LoopEvent.searchDone (Except.ok newR3), LoopEvent.key KeyCode.enter]

/-- Identity template oracle for the invoker fixtures. -/
def tplOk : String → Except String String := fun s => Except.ok s

/-- Invoker fixture config. -/
def cfg8 : Config := ⟨⟨"searcher", ["arg1"]⟩, 0, "tmpl"⟩

/-- Process oracle: exits with status 1 and writes "boom" to stderr. -/
def procBoom : String → List String → Except String ProcOut :=
  fun _ _ => Except.ok ⟨false, "exit status: 1", some "boom", ""⟩

/-- Parser oracle that rejects every payload. -/
def parseNone : String → Except String SearchResult :=
  fun _ => Except.error "bad payload"

/-! ## Helper lemmas -/

/-- Last element of a nonempty list that ends in a fixed singleton. -/
lemma getLast?_cons_append_singleton (a x : TermOp) (l : List TermOp) :
    (a :: l ++ [x]).getLast? = some x :=
  List.getLast?_append_cons (a :: l) x []

section StepLemmas

variable (dt : Except String (DisplayCtx → Except String String)) (h : Nat)
variable (st : SessionState)

lemma step_up_none (hres : st.current_result = none) :
    step dt h st (.key .up) = ⟨st, [], Control.cont, none⟩ := by
  simp only [step, hres]

lemma step_up_zero (r : SearchResult) (hres : st.current_result = some r)
    (hl : r.results.length = 0) :
    step dt h st (.key .up) = ⟨st, [], Control.cont, none⟩ := by
  simp only [step, hres, hl, Nat.lt_irrefl, if_false]

lemma step_up_ok (r : SearchResult) (hres : st.current_result = some r)
    (hl : 0 < r.results.length)
    (hok : (update_results dt (some r)
        ((st.selected_index + r.results.length - 1) % r.results.length) h).2 =
      Except.ok ()) :
    step dt h st (.key .up) =
      ⟨⟨st.query, (st.selected_index + r.results.length - 1) % r.results.length, some r⟩,
       (update_results dt (some r)
         ((st.selected_index + r.results.length - 1) % r.results.length) h).1,
       Control.cont, none⟩ := by
  simp only [step, hres, if_pos hl, hok]

lemma step_up_err (r : SearchResult) (e : RenderError)
    (hres : st.current_result = some r) (hl : 0 < r.results.length)
    (herr : (update_results dt (some r)
        ((st.selected_index + r.results.length - 1) % r.results.length) h).2 =
      Except.error e) :
    step dt h st (.key .up) =
      ⟨⟨st.query, (st.selected_index + r.results.length - 1) % r.results.length, some r⟩,
       (update_results dt (some r)
         ((st.selected_index + r.results.length - 1) % r.results.length) h).1,
       Control.err (renderErrMsg e), none⟩ := by
  simp only [step, hres, if_pos hl, herr]

lemma step_down_none (hres : st.current_result = none) :
    step dt h st (.key .down) = ⟨st, [], Control.cont, none⟩ := by
  simp only [step, hres]

lemma step_down_zero (r : SearchResult) (hres : st.current_result = some r)
    (hl : r.results.length = 0) :
    step dt h st (.key .down) = ⟨st, [], Control.cont, none⟩ := by
  simp only [step, hres, hl, Nat.lt_irrefl, if_false]

lemma step_down_ok (r : SearchResult) (hres : st.current_result = some r)
    (hl : 0 < r.results.length)
    (hok : (update_results dt (some r)
        ((st.selected_index + 1) % r.results.length) h).2 = Except.ok ()) :
    step dt h st (.key .down) =
      ⟨⟨st.query, (st.selected_index + 1) % r.results.length, some r⟩,
       (update_results dt (some r) ((st.selected_index + 1) % r.results.length) h).1,
       Control.cont, none⟩ := by
  simp only [step, hres, if_pos hl, hok]

lemma step_down_err (r : SearchResult) (e : RenderError)
    (hres : st.current_result = some r) (hl : 0 < r.results.length)
    (herr : (update_results dt (some r)
        ((st.selected_index + 1) % r.results.length) h).2 = Except.error e) :
    step dt h st (.key .down) =
      ⟨⟨st.query, (st.selected_index + 1) % r.results.length, some r⟩,
       (update_results dt (some r) ((st.selected_index + 1) % r.results.length) h).1,
       Control.err (renderErrMsg e), none⟩ := by
  simp only [step, hres, if_pos hl, herr]

lemma step_enter_none (hres : st.current_result = none) :
    step dt h st (.key .enter) = ⟨st, [], Control.cont, none⟩ := by
  simp only [step, hres]

lemma step_enter_miss (r : SearchResult) (hres : st.current_result = some r)
    (hget : r.results.get? st.selected_index = none) :
    step dt h st (.key .enter) = ⟨st, [], Control.cont, none⟩ := by
  simp only [step, hres, hget]

lemma step_enter_hit (r : SearchResult) (e : SearchResultEntry)
    (hres : st.current_result = some r)
    (hget : r.results.get? st.selected_index = some e) :
    step dt h st (.key .enter) = ⟨st, [], Control.brk (some e.identifier), none⟩ := by
  simp only [step, hres, hget]

lemma step_resize_ok
    (hok : (update_results dt st.current_result st.selected_index h).2 =
      Except.ok ()) :
    step dt h st .resize =
      ⟨st, (update_results dt st.current_result st.selected_index h).1,
       Control.cont, none⟩ := by
  simp only [step, hok]

lemma step_resize_err (e : RenderError)
    (herr : (update_results dt st.current_result st.selected_index h).2 =
      Except.error e) :
    step dt h st .resize =
      ⟨st, (update_results dt st.current_result st.selected_index h).1,
       Control.err (renderErrMsg e), none⟩ := by
  simp only [step, herr]

lemma step_searchOk_ok (r : SearchResult)
    (hok : (update_results dt (some r) st.selected_index h).2 = Except.ok ()) :
    step dt h st (.searchDone (.ok r)) =
      ⟨⟨st.query, 0, some r⟩, (update_results dt (some r) st.selected_index h).1,
       Control.cont, none⟩ := by
  simp only [step, hok]

lemma step_searchOk_err (r : SearchResult) (e : RenderError)
    (herr : (update_results dt (some r) st.selected_index h).2 = Except.error e) :
    step dt h st (.searchDone (.ok r)) =
      ⟨⟨st.query, st.selected_index, some r⟩,
       (update_results dt (some r) st.selected_index h).1,
       Control.err (renderErrMsg e), none⟩ := by
  simp only [step, herr]

lemma step_searchErr_eq (e : String) :
    step dt h st (.searchDone (.error e)) =
      ⟨⟨st.query, 0, none⟩,
       [TermOp.print ("\r\n" ++ e), TermOp.clearFromCursorDown,
        TermOp.restorePosition],
       Control.cont, none⟩ := rfl

end StepLemmas

/-- Up navigation index arithmetic: the source's wrap-avoiding Nat form
`(i + k - 1) % k` computes the mathematical `(i - 1) mod k`. -/
lemma up_index_int (i k : Nat) (hk : 0 < k) :
    (((i + k - 1) % k : Nat) : Int) = ((i : Int) - 1) % (k : Int) := by
  have h3 : 1 ≤ i + k := by omega
  have h2 : ((i + k - 1 : Nat) : Int) = (i : Int) - 1 + (k : Int) * 1 := by
    rw [Nat.cast_sub h3]
    push_cast
    ring
  have h1 : (((i + k - 1) % k : Nat) : Int) = ((i + k - 1 : Nat) : Int) % (k : Int) := by
    push_cast
    ring
  rw [h1, h2, Int.add_mul_emod_self_left]

/-- Down navigation index arithmetic: the source's `(i + 1) % k` computes the
mathematical `(i + 1) mod k`. -/
lemma down_index_int (i k : Nat) :
    (((i + 1) % k : Nat) : Int) = ((i : Int) + 1) % (k : Int) := by
  push_cast
  ring

/-- A modulo-reduced index always addresses an entry of a nonempty list. -/
lemma get?_mod (entries : List SearchResultEntry) (m : Nat) (hn : 0 < entries.length) :
    ∃ e, entries.get? (m % entries.length) = some e := by
  have hlt : m % entries.length < entries.length := Nat.mod_lt _ hn
  exact ⟨entries.get ⟨_, hlt⟩, List.get?_eq_get hlt⟩

/-- With a total render oracle, row `j` draws entry `(s + j) % n` and
succeeds. -/
lemma rowOps_ok_eq (rd : DisplayCtx → Except String String) (f : DisplayCtx → String)
    (hrd : ∀ c, rd c = Except.ok (f c)) (entries : List SearchResultEntry)
    (s j : Nat) (hn : 0 < entries.length) :
    ∃ e, entries.get? ((s + j) % entries.length) = some e ∧
      rowOps rd entries s entries.length j =
        (rowHead j ++ [TermOp.clearUntilNewLine,
          TermOp.print (f (mkDisplayCtx e ((s + j) % entries.length) j))] ++ rowTail j,
         Except.ok ()) := by
  obtain ⟨e, he⟩ := get?_mod entries (s + j) hn
  exact ⟨e, he, by simp only [rowOps, he, hrd]⟩

/-- The last text printed by a successfully drawn row is its rendered display
line. -/
lemma rowText_rowOk (j : Nat) (str : String) :
    rowText (rowHead j ++ [TermOp.clearUntilNewLine, TermOp.print str] ++ rowTail j) =
      some str := by
  by_cases hj : j = 0 <;>
    simp [rowText, rowHead, rowTail, opText, hj]

/-- A drawn row carries the inverted-color setup exactly when it is visible
row 0. -/
lemma highlight_rowOk (j : Nat) (str : String) :
    TermOp.setForegroundColorBlack ∈
      (rowHead j ++ [TermOp.clearUntilNewLine, TermOp.print str] ++ rowTail j) ↔
      j = 0 := by
  by_cases hj : j = 0 <;> simp [rowHead, rowTail, hj]

/-- With a total render oracle on a nonempty entry list, the row loop
succeeds, draws exactly `count` rows, and row `m` of the output is the op
list of `rowOps` at visible index `j + m`. -/
lemma rowsOps_ok (rd : DisplayCtx → Except String String) (f : DisplayCtx → String)
    (hrd : ∀ c, rd c = Except.ok (f c)) (entries : List SearchResultEntry) (s : Nat)
    (hn : 0 < entries.length) :
    ∀ count j : Nat,
      (rowsOps rd entries s entries.length j count).2 = Except.ok () ∧
      (rowsOps rd entries s entries.length j count).1.length = count ∧
      ∀ m ops, (rowsOps rd entries s entries.length j count).1.get? m = some ops →
        ops = (rowOps rd entries s entries.length (j + m)).1 := by
  intro count
  induction count with
  | zero =>
    intro j
    refine ⟨rfl, rfl, ?_⟩
    intro m ops hm
    simp [rowsOps] at hm
  | succ k ih =>
    intro j
    obtain ⟨e, he, hro⟩ := rowOps_ok_eq rd f hrd entries s j hn
    have hrec := ih (j + 1)
    have hunfold : rowsOps rd entries s entries.length j (k + 1) =
        ((rowOps rd entries s entries.length j).1 ::
          (rowsOps rd entries s entries.length (j + 1) k).1,
         (rowsOps rd entries s entries.length (j + 1) k).2) := by
      simp only [rowsOps, hro]
    refine ⟨?_, ?_, ?_⟩
    · rw [hunfold]
      exact hrec.1
    · rw [hunfold]
      simp [hrec.2.1]
    · intro m ops hm
      rw [hunfold] at hm
      match m with
      | 0 =>
        simp only [List.get?] at hm
        injection hm with hm
        rw [Nat.add_zero]
        exact hm.symm
      | m' + 1 =>
        simp only [List.get?] at hm
        have := hrec.2.2 m' ops hm
        rw [show j + (m' + 1) = j + 1 + m' by omega]
        exact this

/-- The row loop never hits the `unwrap` panic: every entry lookup is taken
modulo the (positive) entry count.  Holds for every render oracle, including
failing ones, and every selection index, including stale ones. -/
lemma rowsOps_no_panic (rd : DisplayCtx → Except String String)
    (entries : List SearchResultEntry) (s : Nat) (hn : 0 < entries.length) :
    ∀ count j : Nat,
      (rowsOps rd entries s entries.length j count).2 ≠
        Except.error RenderError.unwrapPanic := by
  intro count
  induction count with
  | zero => intro j; simp [rowsOps]
  | succ k ih =>
    intro j
    obtain ⟨e, he⟩ := get?_mod entries (s + j) hn
    cases hrc : rd (mkDisplayCtx e ((s + j) % entries.length) j) with
    | error m =>
      have hunfold : rowsOps rd entries s entries.length j (k + 1) =
          ([rowHead j], Except.error (RenderError.template m)) := by
        simp only [rowsOps, rowOps, he, hrc]
      rw [hunfold]
      simp
    | ok str =>
      have hunfold : (rowsOps rd entries s entries.length j (k + 1)).2 =
          (rowsOps rd entries s entries.length (j + 1) k).2 := by
        simp only [rowsOps, rowOps, he, hrc]
      rw [hunfold]
      exact ih (j + 1)

/-- Unfolding of `update_results` for a present, nonempty result set with a
successfully constructed display template. -/
lemma update_results_some_eq (rd : DisplayCtx → Except String String)
    (r : SearchResult) (s h : Nat) (hn : 0 < r.results.length) :
    update_results (Except.ok rd) (some r) s h =
      (TermOp.clearFromCursorDown ::
        (rowsOps rd r.results s r.results.length 0
          (min r.results.length (maxResultsShown h))).1.flatten ++
        [TermOp.restorePosition],
       (rowsOps rd r.results s r.results.length 0
          (min r.results.length (maxResultsShown h))).2) := by
  simp only [update_results, if_neg (Nat.pos_iff_ne_zero.mp hn)]

/-- No redraw, on any input (present/absent/empty results, stale index, any
oracle), fails with the `unwrap` panic. -/
lemma update_results_no_panic (dt : Except String (DisplayCtx → Except String String))
    (result : Option SearchResult) (s h : Nat) :
    (update_results dt result s h).2 ≠ Except.error RenderError.unwrapPanic := by
  cases result with
  | none => simp [update_results]
  | some r =>
    by_cases hn : r.results.length = 0
    · simp [update_results, hn]
    · cases dt with
      | error m => simp [update_results, hn]
      | ok rd =>
        have hn' : 0 < r.results.length := Nat.pos_of_ne_zero hn
        rw [update_results_some_eq rd r s h hn']
        exact rowsOps_no_panic rd r.results s hn' _ 0

/-- Event handlers that keep the loop running preserve the selection
invariant. -/
lemma step_cont_inv (dt : Except String (DisplayCtx → Except String String))
    (h : Nat) (st : SessionState) (ev : LoopEvent)
    (hinv : Inv st) (hc : (step dt h st ev).control = Control.cont) :
    Inv (step dt h st ev).state := by
  cases ev with
  | key k =>
    cases k with
    | char c => exact fun r hr hl => hinv r hr hl
    | backspace => exact fun r hr hl => hinv r hr hl
    | up =>
      cases hres : st.current_result with
      | none =>
        rw [step_up_none dt h st hres]
        exact hinv
      | some r =>
        by_cases hl : 0 < r.results.length
        · cases hu : (update_results dt (some r)
              ((st.selected_index + r.results.length - 1) % r.results.length) h).2 with
          | ok u =>
            rw [step_up_ok dt h st r hres hl hu]
            intro r' hr' hl'
            have heq := Option.some.inj hr'
            subst heq
            exact Nat.mod_lt _ hl
          | error e =>
            rw [step_up_err dt h st r e hres hl hu] at hc
            simp at hc
        · rw [step_up_zero dt h st r hres (by omega)]
          exact hinv
    | down =>
      cases hres : st.current_result with
      | none =>
        rw [step_down_none dt h st hres]
        exact hinv
      | some r =>
        by_cases hl : 0 < r.results.length
        · cases hu : (update_results dt (some r)
              ((st.selected_index + 1) % r.results.length) h).2 with
          | ok u =>
            rw [step_down_ok dt h st r hres hl hu]
            intro r' hr' hl'
            have heq := Option.some.inj hr'
            subst heq
            exact Nat.mod_lt _ hl
          | error e =>
            rw [step_down_err dt h st r e hres hl hu] at hc
            simp at hc
        · rw [step_down_zero dt h st r hres (by omega)]
          exact hinv
    | esc => exact hinv
    | enter =>
      cases hres : st.current_result with
      | none =>
        rw [step_enter_none dt h st hres]
        exact hinv
      | some r =>
        cases hget : r.results.get? st.selected_index with
        | none =>
          rw [step_enter_miss dt h st r hres hget]
          exact hinv
        | some e =>
          rw [step_enter_hit dt h st r e hres hget]
          exact hinv
    | other => exact hinv
  | resize =>
    cases hu : (update_results dt st.current_result st.selected_index h).2 with
    | ok u =>
      rw [step_resize_ok dt h st hu]
      exact hinv
    | error e =>
      rw [step_resize_err dt h st e hu]
      exact hinv
  | streamError m => exact hinv
  | streamNone => exact hinv
  | searchDone outcome =>
    cases outcome with
    | ok r =>
      cases hu : (update_results dt (some r) st.selected_index h).2 with
      | ok u =>
        rw [step_searchOk_ok dt h st r hu]
        intro r' hr' hl'
        have heq := Option.some.inj hr'
        subst heq
        exact hl'
      | error e =>
        rw [step_searchOk_err dt h st r e hu] at hc
        simp at hc
    | error e =>
      rw [step_searchErr_eq dt h st e]
      intro r' hr'
      exact absurd hr' (by simp)

/-- Every state at which the loop waits for an event satisfies the selection
invariant, provided the starting state does. -/
lemma statesVisited_inv (dt : Except String (DisplayCtx → Except String String))
    (h : Nat) :
    ∀ (events : List LoopEvent) (st : SessionState), Inv st →
      ∀ st' ∈ statesVisited dt h st events, Inv st' := by
  intro events
  induction events with
  | nil =>
    intro st hst st' hmem
    simp only [statesVisited, List.mem_singleton] at hmem
    subst hmem
    exact hst
  | cons ev rest ih =>
    intro st hst st' hmem
    simp only [statesVisited] at hmem
    split at hmem
    · rename_i hc
      rcases List.mem_cons.mp hmem with h1 | h2
      · subst h1
        exact hst
      · exact ih (step dt h st ev).state (step_cont_inv dt h st ev hst hc) st' h2
    all_goals
      rcases List.mem_singleton.mp hmem with rfl
      exact hst

/-- One scheduler stimulus under `schedRun`. -/
lemma schedRun_cons (D : Nat) (s : SchedState × List String) (e : SchedEvent)
    (l : List SchedEvent) :
    schedRun D s (e :: l) = schedRun D (schedStep D s e) l := rfl

/-- Splitting of a scheduler run over trace concatenation. -/
lemma schedRun_append (D : Nat) (s : SchedState × List String)
    (l1 l2 : List SchedEvent) :
    schedRun D s (l1 ++ l2) = schedRun D (schedRun D s l1) l2 := by
  simp [schedRun, List.foldl_append]

/-- Unfolding one time unit. -/
lemma ticks_succ (n : Nat) : ticks (n + 1) = SchedEvent.tick :: ticks n := rfl

/-- Ticks do nothing when no search is pending. -/
lemma schedRun_ticks_none (D : Nat) (ex : List String) :
    ∀ T, schedRun D (⟨none⟩, ex) (ticks T) = (⟨none⟩, ex) := by
  intro T
  induction T with
  | zero => rfl
  | succ n ih =>
    rw [ticks_succ, schedRun_cons]
    exact ih

/-- As long as fewer ticks elapse than the pending search's countdown, it
neither fires nor disappears: it only counts down. -/
lemma schedRun_ticks_lt (D : Nat) (ex : List String) (q : String) :
    ∀ T r, T < r →
      schedRun D (⟨some (r, q)⟩, ex) (ticks T) = (⟨some (r - T, q)⟩, ex) := by
  intro T
  induction T with
  | zero => intro r _; rfl
  | succ n ih =>
    intro r hr
    have hstep : schedStep D (⟨some (r, q)⟩, ex) SchedEvent.tick =
        (⟨some (r - 1, q)⟩, ex) := by
      show (if r ≤ 1 then ((⟨none⟩ : SchedState), ex ++ [q])
        else (⟨some (r - 1, q)⟩, ex)) = _
      rw [if_neg (by omega)]
    rw [ticks_succ, schedRun_cons, hstep,
      show r - (n + 1) = r - 1 - n by omega]
    exact ih (r - 1) (by omega)

/-- Running any number of ticks on a pending search either leaves it counting
down or fires it exactly once, appending exactly its query. -/
lemma schedRun_ticks_cases (D : Nat) (q : String) :
    ∀ (T r : Nat) (ex : List String),
      schedRun D (⟨some (r, q)⟩, ex) (ticks T) = (⟨some (r - T, q)⟩, ex) ∨
      schedRun D (⟨some (r, q)⟩, ex) (ticks T) = (⟨none⟩, ex ++ [q]) := by
  intro T
  induction T with
  | zero => intro r ex; exact Or.inl rfl
  | succ n ih =>
    intro r ex
    by_cases hr : r ≤ 1
    · right
      have hstep : schedStep D (⟨some (r, q)⟩, ex) SchedEvent.tick =
          (⟨none⟩, ex ++ [q]) := by
        show (if r ≤ 1 then ((⟨none⟩ : SchedState), ex ++ [q])
          else (⟨some (r - 1, q)⟩, ex)) = _
        rw [if_pos hr]
      rw [ticks_succ, schedRun_cons, hstep]
      exact schedRun_ticks_none D (ex ++ [q]) n
    · have hstep : schedStep D (⟨some (r, q)⟩, ex) SchedEvent.tick =
          (⟨some (r - 1, q)⟩, ex) := by
        show (if r ≤ 1 then ((⟨none⟩ : SchedState), ex ++ [q])
          else (⟨some (r - 1, q)⟩, ex)) = _
        rw [if_neg hr]
      rw [ticks_succ, schedRun_cons, hstep]
      rcases ih (r - 1) ex with h1 | h1
      · left
        rw [h1, show r - 1 - n = r - (n + 1) by omega]
      · right
        exact h1

/-- A burst of submissions closer together than the debounce countdown
executes nothing: each submission replaces the previous search while it is
still counting down, leaving only the last query pending with a full
countdown. -/
lemma schedRun_burst (D : Nat) :
    ∀ (rest : List (Nat × String)) (q : String) (s : SchedState × List String),
      (∀ p ∈ rest, p.1 < D) →
      schedRun D s (burst q rest) = (⟨some (D, lastQuery q rest)⟩, s.2) := by
  intro rest
  induction rest with
  | nil =>
    intro q s _
    obtain ⟨s1, s2⟩ := s
    rfl
  | cons p rest ih =>
    intro q s hg
    obtain ⟨s1, s2⟩ := s
    obtain ⟨g, q2⟩ := p
    have hgD : g < D := by
      have := hg (g, q2) (List.mem_cons_self _ _)
      simpa using this
    show schedRun D (s1, s2) (SchedEvent.submit q :: (ticks g ++ burst q2 rest)) = _
    rw [schedRun_cons,
      show schedStep D (s1, s2) (SchedEvent.submit q) = (⟨some (D, q)⟩, s2) from rfl,
      schedRun_append, schedRun_ticks_lt D s2 q g D hgD,
      ih q2 _ (fun p hp => hg p (List.mem_cons_of_mem _ hp))]
    rfl

/-- The final outcome of `run` agrees with the loop's outcome. -/
lemma run_snd (dt : Except String (DisplayCtx → Except String String)) (h : Nat)
    (events : List LoopEvent) :
    (run dt h events).2 = (runLoop dt h initialState events).2 := by
  cases hl : (runLoop dt h initialState events).2 <;> simp [run, hl]

/-- Shape of `run` when the loop broke: setup actions, the loop's ops, and
then the unconditional cleanup of lines 152-153. -/
lemma run_eq_done (dt : Except String (DisplayCtx → Except String String)) (h : Nat)
    (events : List LoopEvent) (res : Option String)
    (hl : (runLoop dt h initialState events).2 = RunOutcome.done res) :
    run dt h events =
      ([Action.enableRaw, Action.out (TermOp.print queryPrompt),
        Action.out TermOp.savePosition] ++
        (runLoop dt h initialState events).1.map Action.out ++ cleanupActions,
       RunOutcome.done res) := by
  simp only [run, hl]

/-- The session function never writes to the diagnostic stream itself. -/
lemma run_no_errLine (dt : Except String (DisplayCtx → Except String String))
    (h : Nat) (events : List LoopEvent) (s : String) :
    Action.errLine s ∉ (run dt h events).1 := by
  cases hl : (runLoop dt h initialState events).2 <;>
    simp [run, hl, cleanupActions]

/-- Main appends exactly one diagnostic line when the session produced an
identifier. -/
lemma mainRun_done_some (dt : Except String (DisplayCtx → Except String String))
    (h : Nat) (events : List LoopEvent) (id : String)
    (hdone : (run dt h events).2 = RunOutcome.done (some id)) :
    mainRun dt h events =
      ((run dt h events).1 ++ [Action.errLine id], RunOutcome.done (some id)) := by
  simp only [mainRun, hdone]

/-- Main writes nothing when the session was cancelled. -/
lemma mainRun_done_none (dt : Except String (DisplayCtx → Except String String))
    (h : Nat) (events : List LoopEvent)
    (hdone : (run dt h events).2 = RunOutcome.done none) :
    mainRun dt h events = run dt h events := by
  simp only [mainRun, hdone]

/-! ## Claim theorems -/

/-- C1: the claim says every termination path — Enter, Escape, and a
propagated fatal error from the event source — clears the screen from the
cursor down and restores cooked mode before returning.  The code violates
this on the error path: `Some(Err(error)) => return Err(..)` (line 126)
returns from `run` directly, skipping the cleanup and `disable_raw_mode()`
of lines 152-153, which run only after a loop `break`.  Evaluated here: a
run whose event source errors emits neither the clear nor `disableRaw`,
while an Escape run ends with the full cleanup sequence. -/
theorem C1_code_bug :
    (run dtId 10 [LoopEvent.streamError "event read failed"]).2 =
      RunOutcome.failed "event read failed" ∧
    Action.disableRaw ∉ (run dtId 10 [LoopEvent.streamError "event read failed"]).1 ∧
    Action.out TermOp.clearFromCursorDown ∉
      (run dtId 10 [LoopEvent.streamError "event read failed"]).1 ∧
    (run dtId 10 [LoopEvent.key KeyCode.esc]).1 =
      [Action.enableRaw, Action.out (TermOp.print queryPrompt),
       Action.out TermOp.savePosition, Action.out (TermOp.print "\r"),
       Action.out TermOp.clearFromCursorDown, Action.disableRaw] ∧
    (run dtId 10 [LoopEvent.key KeyCode.esc]).2 = RunOutcome.done none := by
  refine ⟨rfl, by decide, by decide, rfl, rfl⟩

/-- C2 counterexample: the claim asserts that after a search failure the
subsequent redraw displays the "no entries found" state.  At a concrete
state with a present two-entry result set, the failure handler prints the
error, clears the result to absent, resets the index, and its redraw draws
nothing at all — in particular no "no entries found" line. -/
theorem C2_counterexample :
    step dtId 10 ⟨"ab", 1, some ⟨[eA, eB]⟩⟩ (.searchDone (.error "boom")) =
      ⟨⟨"ab", 0, none⟩,
       [TermOp.print "\r\nboom", TermOp.clearFromCursorDown, TermOp.restorePosition],
       Control.cont, none⟩ ∧
    TermOp.print "\r\nno entries found" ∉
      (step dtId 10 ⟨"ab", 1, some ⟨[eA, eB]⟩⟩ (.searchDone (.error "boom"))).ops := by
  exact ⟨rfl, by decide⟩

/-- C2 (amended): when the pending search completes with a failure, the
controller prints an error line containing the failure text below the query
line ("\r\n" followed by the message), clears the ResultSet to absent
(`current_result.take()`), resets SelectionIndex to 0 by the end of the
handler, and the redraw it performs clears everything below the cursor and
draws nothing — the "no entries found" message is shown only for a present,
empty ResultSet, not after an error. -/
theorem C2_amended (dt : Except String (DisplayCtx → Except String String))
    (h : Nat) (st : SessionState) (e : String) :
    step dt h st (.searchDone (.error e)) =
      ⟨⟨st.query, 0, none⟩,
       [TermOp.print ("\r\n" ++ e), TermOp.clearFromCursorDown,
        TermOp.restorePosition],
       Control.cont, none⟩ :=
  step_searchErr_eq dt h st e

/-- C3 counterexample: the claim asserts that the redraw performed by the
success handler uses SelectionIndex 0 and highlights entry 0 of the new
ResultSet.  At a concrete state with prior SelectionIndex 2, the handler's
redraw is the one computed with index 2 — its first (highlighted) visible
row shows entry 2 ("c"), not entry 0 ("a") — and differs from the redraw
that index 0 would have produced, even though the handler does leave
SelectionIndex at 0 afterwards. -/
theorem C3_counterexample :
    (step dtId 10 ⟨"q", 2, some newR3⟩ (.searchDone (.ok newR3))).state =
      ⟨"q", 0, some newR3⟩ ∧
    (step dtId 10 ⟨"q", 2, some newR3⟩ (.searchDone (.ok newR3))).ops =
      (update_results dtId (some newR3) 2 10).1 ∧
    rowText ((rowsOps rdId newR3.results 2 newR3.results.length 0
      (min newR3.results.length (maxResultsShown 10))).1.headD []) = some "c" ∧
    (update_results dtId (some newR3) 2 10).1 ≠
      (update_results dtId (some newR3) 0 10).1 := by
  refine ⟨rfl, rfl, rfl, by decide⟩

/-- C3 (amended): when the pending search completes successfully, the
controller installs the new ResultSet, performs the redraw using the
SelectionIndex value from before the completion (entry lookups wrap modulo
the new result count), and only then resets SelectionIndex to 0 — so after
the handler SelectionIndex is 0, but the redraw performed by the handler
itself used the prior index. -/
theorem C3_amended (dt : Except String (DisplayCtx → Except String String))
    (h : Nat) (st : SessionState) (r : SearchResult)
    (hok : (update_results dt (some r) st.selected_index h).2 = Except.ok ()) :
    step dt h st (.searchDone (.ok r)) =
      ⟨⟨st.query, 0, some r⟩, (update_results dt (some r) st.selected_index h).1,
       Control.cont, none⟩ :=
  step_searchOk_ok dt h st r hok

/-- C3 witness: a concrete success completion at prior index 1. -/
theorem C3_witness :
    step dtId 10 ⟨"q", 1, some newR3⟩ (.searchDone (.ok newR3)) =
      ⟨⟨"q", 0, some newR3⟩, (update_results dtId (some newR3) 1 10).1,
       Control.cont, none⟩ :=
  C3_amended dtId 10 ⟨"q", 1, some newR3⟩ newR3 (by rfl)

/-- C4: for every burst of N query submissions each arriving after strictly
fewer time units than the debounce countdown `D`, followed by any amount of
further time, at most one search executes, every executed (hence delivered)
search uses the last submitted query text, and no superseded search's
outcome is ever delivered — each submission replaces the still-sleeping
pending search, which therefore never runs. -/
theorem C4_debounce (D : Nat) (q : String) (rest : List (Nat × String)) (T : Nat)
    (hg : ∀ p ∈ rest, p.1 < D) :
    ((schedRun D (⟨none⟩, []) (burst q rest ++ ticks T)).2 = [] ∨
     (schedRun D (⟨none⟩, []) (burst q rest ++ ticks T)).2 = [lastQuery q rest]) ∧
    (schedRun D (⟨none⟩, []) (burst q rest ++ ticks T)).2.length ≤ 1 ∧
    ∀ x ∈ (schedRun D (⟨none⟩, []) (burst q rest ++ ticks T)).2,
      x = lastQuery q rest := by
  have hb := schedRun_burst D rest q (⟨none⟩, []) hg
  have hsplit : schedRun D (⟨none⟩, []) (burst q rest ++ ticks T) =
      schedRun D (⟨some (D, lastQuery q rest)⟩, []) (ticks T) := by
    rw [schedRun_append, hb]
  rcases schedRun_ticks_cases D (lastQuery q rest) T D [] with h1 | h1
  · rw [hsplit, h1]
    exact ⟨Or.inl rfl, by simp, by simp⟩
  · rw [hsplit, h1]
    refine ⟨Or.inr (by simp), by simp, ?_⟩
    intro x hx
    simpa using hx

/-- C4 witness: three submissions 2 and 3 time units apart with countdown 5,
then 9 further units. -/
theorem C4_witness :
    ((schedRun 5 (⟨none⟩, []) (burst "a" [(2, "ab"), (3, "abc")] ++ ticks 9)).2 = [] ∨
     (schedRun 5 (⟨none⟩, []) (burst "a" [(2, "ab"), (3, "abc")] ++ ticks 9)).2 =
       [lastQuery "a" [(2, "ab"), (3, "abc")]]) :=
  (C4_debounce 5 "a" [(2, "ab"), (3, "abc")] 9 (by decide)).1

/-- C5: with a present ResultSet of size k > 0 and SelectionIndex i, Up sets
the index to the source's `(i + k - 1) % k`, which equals the mathematical
(i - 1) mod k, Down sets it to `(i + 1) % k` = (i + 1) mod k, and in both
cases (when the redraw renders) the handler issues exactly the redraw of
`update_results` at the new index; with an absent or empty ResultSet both
keys are a strict no-op: state unchanged and no ops issued. -/
theorem C5_nav (dt : Except String (DisplayCtx → Except String String)) (h : Nat)
    (st : SessionState) :
    (∀ r, st.current_result = some r → 0 < r.results.length →
      ((((st.selected_index + r.results.length - 1) % r.results.length : Nat) : Int) =
          ((st.selected_index : Int) - 1) % (r.results.length : Int)) ∧
      ((((st.selected_index + 1) % r.results.length : Nat) : Int) =
          ((st.selected_index : Int) + 1) % (r.results.length : Int)) ∧
      ((update_results dt (some r)
          ((st.selected_index + r.results.length - 1) % r.results.length) h).2 =
        Except.ok () →
        step dt h st (.key .up) =
          ⟨⟨st.query, (st.selected_index + r.results.length - 1) % r.results.length,
            some r⟩,
           (update_results dt (some r)
             ((st.selected_index + r.results.length - 1) % r.results.length) h).1,
           Control.cont, none⟩) ∧
      ((update_results dt (some r) ((st.selected_index + 1) % r.results.length) h).2 =
        Except.ok () →
        step dt h st (.key .down) =
          ⟨⟨st.query, (st.selected_index + 1) % r.results.length, some r⟩,
           (update_results dt (some r) ((st.selected_index + 1) % r.results.length) h).1,
           Control.cont, none⟩)) ∧
    ((st.current_result = none ∨ st.current_result = some ⟨[]⟩) →
      step dt h st (.key .up) = ⟨st, [], Control.cont, none⟩ ∧
      step dt h st (.key .down) = ⟨st, [], Control.cont, none⟩) := by
  constructor
  · intro r hres hl
    exact ⟨up_index_int st.selected_index r.results.length hl,
      down_index_int st.selected_index r.results.length,
      fun hok => step_up_ok dt h st r hres hl hok,
      fun hok => step_down_ok dt h st r hres hl hok⟩
  · rintro (hres | hres)
    · exact ⟨step_up_none dt h st hres, step_down_none dt h st hres⟩
    · exact ⟨step_up_zero dt h st ⟨[]⟩ hres rfl, step_down_zero dt h st ⟨[]⟩ hres rfl⟩

/-- C5 witness: Up from index 0 on three entries wraps to 2; Up with no
result set is a no-op. -/
theorem C5_witness :
    step dtId 10 ⟨"", 0, some newR3⟩ (.key .up) =
      ⟨⟨"", 2, some newR3⟩, (update_results dtId (some newR3) 2 10).1,
       Control.cont, none⟩ ∧
    step dtId 10 ⟨"", 0, none⟩ (.key .up) = ⟨⟨"", 0, none⟩, [], Control.cont, none⟩ := by
  constructor
  · exact ((C5_nav dtId 10 ⟨"", 0, some newR3⟩).1 newR3 rfl (by decide)).2.2.1 (by rfl)
  · exact ((C5_nav dtId 10 ⟨"", 0, none⟩).2 (Or.inl rfl)).1

/-- C7: Enter terminates the session with the selected entry's identifier
exactly when a ResultSet exists and SelectionIndex addresses a valid entry,
and is otherwise a strict no-op; Escape terminates with no identifier; at
process level, a session that terminated with an identifier writes it as a
single diagnostic-stream line strictly after `run`'s actions — which end
with the terminal cleanup — a cancelled session writes nothing, and `run`
itself never writes to the diagnostic stream. -/
theorem C7_enter (dt : Except String (DisplayCtx → Except String String)) (h : Nat)
    (st : SessionState) :
    (∀ r e, st.current_result = some r →
      r.results.get? st.selected_index = some e →
      step dt h st (.key .enter) = ⟨st, [], Control.brk (some e.identifier), none⟩) ∧
    (st.current_result = none →
      step dt h st (.key .enter) = ⟨st, [], Control.cont, none⟩) ∧
    (∀ r, st.current_result = some r →
      r.results.get? st.selected_index = none →
      step dt h st (.key .enter) = ⟨st, [], Control.cont, none⟩) ∧
    step dt h st (.key .esc) = ⟨st, [], Control.brk none, none⟩ ∧
    (∀ events id, (run dt h events).2 = RunOutcome.done (some id) →
      (mainRun dt h events).1 = (run dt h events).1 ++ [Action.errLine id] ∧
      ∃ pre, (run dt h events).1 = pre ++ cleanupActions) ∧
    (∀ events, (run dt h events).2 = RunOutcome.done none →
      mainRun dt h events = run dt h events) ∧
    (∀ events s, Action.errLine s ∉ (run dt h events).1) := by
  refine ⟨?_, ?_, ?_, rfl, ?_, ?_, ?_⟩
  · intro r e hres hget
    exact step_enter_hit dt h st r e hres hget
  · intro hres
    exact step_enter_none dt h st hres
  · intro r hres hget
    exact step_enter_miss dt h st r hres hget
  · intro events id hdone
    have hl : (runLoop dt h initialState events).2 = RunOutcome.done (some id) := by
      rw [← run_snd dt h events]
      exact hdone
    constructor
    · rw [mainRun_done_some dt h events id hdone]
    · exact ⟨_, by rw [run_eq_done dt h events (some id) hl]⟩
  · intro events hdone
    exact mainRun_done_none dt h events hdone
  · intro events s
    exact run_no_errLine dt h events s

/-- C7 witness: Enter with entry 0 of three results selected breaks with
identifier "a", and the whole session then writes exactly the diagnostic
line "a" after `run`'s actions. -/
theorem C7_witness :
    step dtId 10 ⟨"", 0, some newR3⟩ (.key .enter) =
      ⟨⟨"", 0, some newR3⟩, [], Control.brk (some "a"), none⟩ ∧
    (mainRun dtId 10 evs7).1 = (run dtId 10 evs7).1 ++ [Action.errLine "a"] := by
  constructor
  · exact (C7_enter dtId 10 ⟨"", 0, some newR3⟩).1 newR3 eA rfl (by decide)
  · exact ((C7_enter dtId 10 initialState).2.2.2.2.1 evs7 "a" (by rfl)).1

/-- C8: the Search Invoker succeeds exactly when the executable template and
every argument template render, the spawned process exits with status 0,
and standard output decodes as a ResultSet (the quantification over `res`
includes the empty result list); it propagates template failures verbatim,
and on a non-zero exit it fails with a message that is the decoded standard
error (or the UTF-8 fallback text) followed by the status error; a decode
failure on status 0 is propagated.  The embedding consults each oracle at
most once along every path: no failure is retried. -/
theorem C8_invoker (tpl : String → Except String String)
    (runProc : String → List String → Except String ProcOut)
    (parse : String → Except String SearchResult) (cfg : Config) :
    (∀ res, search tpl runProc parse cfg = Except.ok res ↔
      ∃ exe args out, tpl cfg.query_command.executable = Except.ok exe ∧
        cfg.query_command.args.mapM tpl = Except.ok args ∧
        runProc exe args = Except.ok out ∧ out.exitZero = true ∧
        parse out.stdoutPayload = Except.ok res) ∧
    (∀ m, tpl cfg.query_command.executable = Except.error m →
      search tpl runProc parse cfg = Except.error m) ∧
    (∀ exe m, tpl cfg.query_command.executable = Except.ok exe →
      cfg.query_command.args.mapM tpl = Except.error m →
      search tpl runProc parse cfg = Except.error m) ∧
    (∀ exe args out, tpl cfg.query_command.executable = Except.ok exe →
      cfg.query_command.args.mapM tpl = Except.ok args →
      runProc exe args = Except.ok out → out.exitZero = false →
      search tpl runProc parse cfg =
        Except.error
          (out.stderrText.getD stderrFallback ++ ", status error " ++ out.statusMsg) ∧
      (∀ t, out.stderrText = some t →
        search tpl runProc parse cfg =
          Except.error (t ++ ", status error " ++ out.statusMsg)) ∧
      (out.stderrText = none →
        search tpl runProc parse cfg =
          Except.error (stderrFallback ++ ", status error " ++ out.statusMsg))) ∧
    (∀ exe args out m, tpl cfg.query_command.executable = Except.ok exe →
      cfg.query_command.args.mapM tpl = Except.ok args →
      runProc exe args = Except.ok out → out.exitZero = true →
      parse out.stdoutPayload = Except.error m →
      search tpl runProc parse cfg = Except.error m) := by
  refine ⟨?_, ?_, ?_, ?_, ?_⟩
  · intro res
    constructor
    · intro hok
      cases htpl : tpl cfg.query_command.executable with
      | error m =>
        simp only [search, htpl] at hok
        exact Except.noConfusion hok
      | ok exe =>
        cases hargs : cfg.query_command.args.mapM tpl with
        | error m =>
          simp only [search, htpl, hargs] at hok
          exact Except.noConfusion hok
        | ok args =>
          cases hproc : runProc exe args with
          | error m =>
            simp only [search, htpl, hargs, hproc] at hok
            exact Except.noConfusion hok
          | ok out =>
            cases hz : out.exitZero with
            | true =>
              simp only [search, htpl, hargs, hproc] at hok
              rw [if_pos hz] at hok
              exact ⟨exe, args, out, rfl, rfl, hproc, hz, hok⟩
            | false =>
              simp only [search, htpl, hargs, hproc] at hok
              rw [if_neg (by simp [hz])] at hok
              exact Except.noConfusion hok
    · rintro ⟨exe, args, out, htpl, hargs, hproc, hz, hparse⟩
      simp only [search, htpl, hargs, hproc]
      rw [if_pos hz]
      exact hparse
  · intro m htpl
    simp only [search, htpl]
  · intro exe m htpl hargs
    simp only [search, htpl, hargs]
  · intro exe args out htpl hargs hproc hz
    refine ⟨?_, ?_, ?_⟩
    · simp only [search, htpl, hargs, hproc]
      rw [if_neg (by simp [hz])]
    · intro t ht
      simp only [search, htpl, hargs, hproc]
      rw [if_neg (by simp [hz]), ht]
      rfl
    · intro ht
      simp only [search, htpl, hargs, hproc]
      rw [if_neg (by simp [hz]), ht]
      rfl
  · intro exe args out m htpl hargs hproc hz hparse
    simp only [search, htpl, hargs, hproc]
    rw [if_pos hz]
    exact hparse

/-- C8 witness: a process that exits with status 1 writing "boom" to stderr
makes the invoker fail with a message carrying "boom" and the status
error. -/
theorem C8_witness :
    search tplOk procBoom parseNone cfg8 =
      Except.error ("boom" ++ ", status error " ++ "exit status: 1") :=
  ((C8_invoker tplOk procBoom parseNone cfg8).2.2.2.1 "searcher" ["arg1"]
    ⟨false, "exit status: 1", some "boom", ""⟩ rfl rfl rfl rfl).2.1 "boom" rfl

/-- C10: at every event-handling point of the session loop — every state at
which the loop waits for the next event, starting from the initial state —
a present nonempty ResultSet implies SelectionIndex is strictly below the
result count; and independently, every redraw's entry lookup is taken
modulo the result count, so `update_results` never fails with the `unwrap`
panic, for any oracle, any result set and any (possibly stale)
SelectionIndex. -/
theorem C10_invariant (dt : Except String (DisplayCtx → Except String String))
    (h : Nat) :
    (∀ (events : List LoopEvent) (st' : SessionState),
      st' ∈ statesVisited dt h initialState events →
      ∀ r, st'.current_result = some r → 0 < r.results.length →
        st'.selected_index < r.results.length) ∧
    ∀ (dt' : Except String (DisplayCtx → Except String String))
      (result : Option SearchResult) (s th : Nat),
      (update_results dt' result s th).2 ≠ Except.error RenderError.unwrapPanic := by
  constructor
  · intro events st' hmem
    exact statesVisited_inv dt h events initialState
      (fun r hr _ => Option.noConfusion hr) st' hmem
  · intro dt' result s th
    exact update_results_no_panic dt' result s th

/-- C6: redrawing a present, nonempty ResultSet of size n at terminal height
h with selection s succeeds, issues the clear-then-rows-then-restore trace,
draws exactly min(n, max(h-2,0)) rows (Nat subtraction h - 2 is the
saturating max(h-2,0); `maxResultsShown` is the source's
`term_height.max(2) - 2`), row j shows entry (s + j) % n, the rendered text
of row j is the display template applied to that entry's context, and row 0
is the only row wrapped in inverted colors.  When s < n, row 0's entry index
(s + 0) % n is s itself, the selected entry. -/
theorem C6_render (rd : DisplayCtx → Except String String) (f : DisplayCtx → String)
    (hrd : ∀ c, rd c = Except.ok (f c)) (r : SearchResult) (s h : Nat)
    (hn : 0 < r.results.length) :
    (update_results (Except.ok rd) (some r) s h).2 = Except.ok () ∧
    (update_results (Except.ok rd) (some r) s h).1 =
      TermOp.clearFromCursorDown ::
        (rowsOps rd r.results s r.results.length 0
          (min r.results.length (maxResultsShown h))).1.flatten ++
        [TermOp.restorePosition] ∧
    maxResultsShown h = h - 2 ∧
    (rowsOps rd r.results s r.results.length 0
        (min r.results.length (maxResultsShown h))).1.length =
      min r.results.length (h - 2) ∧
    (∀ j ops,
      (rowsOps rd r.results s r.results.length 0
        (min r.results.length (maxResultsShown h))).1.get? j = some ops →
      ∃ e, r.results.get? ((s + j) % r.results.length) = some e ∧
        rowText ops = some (f (mkDisplayCtx e ((s + j) % r.results.length) j)) ∧
        (TermOp.setForegroundColorBlack ∈ ops ↔ j = 0)) ∧
    (s < r.results.length → (s + 0) % r.results.length = s) := by
  have hmax : maxResultsShown h = h - 2 := by
    simp only [maxResultsShown]
    omega
  have htriple := rowsOps_ok rd f hrd r.results s hn
    (min r.results.length (maxResultsShown h)) 0
  refine ⟨?_, ?_, hmax, ?_, ?_, ?_⟩
  · rw [update_results_some_eq rd r s h hn]
    exact htriple.1
  · rw [update_results_some_eq rd r s h hn]
  · rw [htriple.2.1, hmax]
  · intro j ops hj
    have hops := htriple.2.2 j ops hj
    obtain ⟨e, he, hro⟩ := rowOps_ok_eq rd f hrd r.results s j hn
    rw [Nat.zero_add, hro] at hops
    refine ⟨e, he, ?_, ?_⟩
    · rw [hops]
      exact rowText_rowOk j _
    · rw [hops]
      exact highlight_rowOk j _
  · intro hs
    rw [Nat.add_zero]
    exact Nat.mod_eq_of_lt hs

/-- C6 witness: three entries at height 10 with selection 1 draw all three
rows and succeed. -/
theorem C6_witness :
    (update_results (Except.ok rdId) (some newR3) 1 10).2 = Except.ok () ∧
    (rowsOps rdId newR3.results 1 newR3.results.length 0
        (min newR3.results.length (maxResultsShown 10))).1.length =
      min newR3.results.length (10 - 2) := by
  have h6 := C6_render rdId (fun c => c.identifier) (fun _ => rfl) newR3 1 10 (by decide)
  exact ⟨h6.1, h6.2.2.2.1⟩

/-- C9: every result-list redraw first clears everything from the cursor
downward, and its final op — on every exit path, including template
construction failures and row-render failures partway through the loop — is
the cursor restore to the saved query-edit position installed by the
`RestorePositionRAII` guard.  Quantified over every template oracle (which
may fail at any row), every result set, selection index and terminal
height. -/
theorem C9_redraw (dt : Except String (DisplayCtx → Except String String))
    (result : Option SearchResult) (selected_index termHeight : Nat) :
    (update_results dt result selected_index termHeight).1.head? =
      some TermOp.clearFromCursorDown ∧
    (update_results dt result selected_index termHeight).1.getLast? =
      some TermOp.restorePosition := by
  exact ⟨rfl, getLast?_cons_append_singleton _ _ _⟩

/-- C10 witness: after a successful search and one Down, the visited state
has index 1 < 3; a redraw with a wildly stale index 5 on three entries does
not panic. -/
theorem C10_witness :
    (⟨"", 1, some newR3⟩ : SessionState).selected_index < newR3.results.length ∧
    (update_results dtId (some newR3) 5 10).2 ≠
      Except.error RenderError.unwrapPanic := by
  constructor
  · exact (C10_invariant dtId 10).1
      [LoopEvent.searchDone (Except.ok newR3), LoopEvent.key KeyCode.down]
      ⟨"", 1, some newR3⟩ (by decide) newR3 rfl (by decide)
  · exact (C10_invariant dtId 10).2 dtId (some newR3) 5 10

end SearchTui
